import Mathlib

/-!
Verification of the ammv2 constant-product AMM program
(`src/smart-contracts/programs/ammv2/src/`).

The Rust instruction handlers are shallowly embedded as executable Lean
functions over `Nat`, with machine-integer behaviour made explicit:

* `checked_*` mirror Rust's `checked_add / checked_sub / checked_mul /
  checked_div` on `u64` / `u128` (returning `Option`);
* a raw (unchecked) subtraction or addition on a machine integer is
  modelled as wrapping arithmetic modulo the word size, the behaviour of a
  Rust release build;
* `.unwrap()` on a failed checked operation, and an out-of-bounds slice
  access, abort the whole transaction: modelled as the distinguished error
  `ErrorCode.unwrapAbort`;
* a cross-program invocation (token or system transfer) that the external
  custody program would reject -- destination record empty or owned by a
  different program, or source balance insufficient (the interface
  contract of the custody collaborator in the specification) -- is
  modelled as the distinguished error `ErrorCode.cpiFailure`.

Account identities (`Pubkey`) are modelled as `Nat`, with `0` playing the
role of `Pubkey::default()`; the two custody program identities are the
distinct constants `TOKEN_PROGRAM_ID` and `TOKEN_2022_PROGRAM_ID`.
-/

/-- The word bound of `u64`. -/
def U64 : Nat := 2 ^ 64

/-- The word bound of `u128`. -/
def U128 : Nat := 2 ^ 128

/-- Rust `u64::checked_add`. -/
def checked_add_u64 (a b : Nat) : Option Nat :=
  if a + b < U64 then some (a + b) else none

/-- Rust `u64::checked_mul`. -/
def checked_mul_u64 (a b : Nat) : Option Nat :=
  if a * b < U64 then some (a * b) else none

/-- Rust `u128::checked_add`. -/
def checked_add_u128 (a b : Nat) : Option Nat :=
  if a + b < U128 then some (a + b) else none

/-- Rust `u128::checked_mul`. -/
def checked_mul_u128 (a b : Nat) : Option Nat :=
  if a * b < U128 then some (a * b) else none

/-- Rust `checked_sub` (width independent: fails exactly on underflow). -/
def checked_sub (a b : Nat) : Option Nat :=
  if b ≤ a then some (a - b) else none

/-- Rust `checked_div` (width independent: fails exactly on a zero divisor). -/
def checked_div (a b : Nat) : Option Nat :=
  if b = 0 then none else some (a / b)

/-- Unchecked `u64` subtraction `a - b`, wrapping modulo `2 ^ 64`
(for `a b < U64`). -/
def wrap_sub_u64 (a b : Nat) : Nat := (a + U64 - b) % U64

/-- Unchecked `u128` subtraction `a - b`, wrapping modulo `2 ^ 128`
(for `a b < U128`). -/
def wrap_sub_u128 (a b : Nat) : Nat := (a + U128 - b) % U128

/-- The error outcomes of an instruction, following `src/error.rs` plus the
Anchor built-in error used by `PoolState::try_deserialize`, the
transaction-aborting unwrap failure, and a rejected cross-program
invocation. -/
inductive ErrorCode where
  | notEnoughBalance
  | noPoolMintOutput
  | burnTooMuch
  | notEnoughOut
  | invalidProtocolFee
  | invalidTreasury
  | notNativePool
  | invalidInput
  | insufficientLiquidity
  | mathOverflow
  | slippageExceeded
  | insufficientRentReserve
  | invalidAccountData
  | accountDiscriminatorNotFound
  | unwrapAbort
  | cpiFailure
  deriving DecidableEq

/-- The pool record, following `PoolState` in `src/state.rs`.
`protocol_treasury` is the account identity as a number, `0` standing for
`Pubkey::default()` (no treasury). -/
structure PoolStateRec where
  total_amount_minted : Nat
  fee_numerator : Nat
  fee_denominator : Nat
  protocol_treasury : Nat
  protocol_fee_bps : Nat
  is_native_pool : Bool
  native_mint_index : Nat
  native_reserve : Nat
  deriving DecidableEq

/-- Abstract identity of the legacy custody (token) program
(`utils.rs: TOKEN_PROGRAM_ID`). -/
def TOKEN_PROGRAM_ID : Nat := 1

/-- Abstract identity of the extension-capable custody (token) program
(`utils.rs: TOKEN_2022_PROGRAM_ID`). -/
def TOKEN_2022_PROGRAM_ID : Nat := 2

/-- The account-level inputs of the regular `swap` instruction
(`src/instructions/swap.rs`) that its arithmetic and fee routing read.
Account-identity requirements checked earlier in the handler (user/vault
ownership, mint equality, the pool-authority address) are outside the
arithmetic model. -/
structure SwapAccounts where
  user_src_balance : Nat
  vault_src_balance : Nat
  vault_dst_balance : Nat
  is_input_xnt : Bool
  is_output_xnt : Bool
  src_vault_owner : Nat
  dst_vault_owner : Nat
  token_2022_program_key : Nat
  treasury_ata_empty : Bool
  treasury_ata_owner : Nat
  deriving DecidableEq

/-- The transfers a successful regular swap performs:
`output_to_user` from the destination vault to the trader,
`fee_from_vault` from the destination vault to the treasury record,
`fee_from_user` from the trader to the treasury record, and
`input_to_vault` from the trader to the source vault. -/
structure SwapOutcome where
  output_to_user : Nat
  fee_from_vault : Nat
  fee_from_user : Nat
  input_to_vault : Nat
  deriving DecidableEq

/-- The regular `swap` handler (`src/instructions/swap.rs`, `fn swap`),
after the account unpacking and identity checks: balance check, LP-fee and
constant-product arithmetic (all `.unwrap()`ed), protocol-fee computation,
the treasury-record validity test, the output/input adjustments, the
minimum-output check, the token-2022 program check, and the four
transfers in the handler's order. -/
def swap_regular (p : PoolStateRec) (acc : SwapAccounts)
    (amount_in min_amount_out : Nat) : Except ErrorCode SwapOutcome :=
  if acc.user_src_balance < amount_in then .error .notEnoughBalance else
  match (checked_mul_u128 amount_in p.fee_numerator).bind
      (fun m => checked_div m p.fee_denominator) with
  | none => .error .unwrapAbort
  | some lp_fee_amount =>
  let amount_in_minus_fees := wrap_sub_u128 amount_in lp_fee_amount
  match checked_mul_u128 acc.vault_src_balance acc.vault_dst_balance with
  | none => .error .unwrapAbort
  | some invariant =>
  match checked_div invariant
      ((acc.vault_src_balance + amount_in_minus_fees) % U128) with
  | none => .error .unwrapAbort
  | some new_dst_vault =>
  match checked_sub acc.vault_dst_balance new_dst_vault with
  | none => .error .unwrapAbort
  | some output_amount =>
  let xnt_amount_for_fee :=
    if acc.is_input_xnt then amount_in
    else if acc.is_output_xnt then output_amount
    else 0
  match (if p.protocol_treasury ≠ 0 ∧ 0 < p.protocol_fee_bps ∧
            0 < xnt_amount_for_fee then
           (checked_mul_u128 xnt_amount_for_fee p.protocol_fee_bps).bind
             (fun t => checked_div t 10000)
         else some 0) with
  | none => .error .unwrapAbort
  | some protocol_fee_xnt =>
  let treasury_ata_valid : Bool :=
    decide (p.protocol_treasury ≠ 0 ∧ 0 < protocol_fee_xnt ∧
      acc.treasury_ata_empty = false ∧
      acc.treasury_ata_owner = TOKEN_PROGRAM_ID)
  match (if acc.is_output_xnt && treasury_ata_valid then
           checked_sub output_amount protocol_fee_xnt
         else some output_amount) with
  | none => .error .unwrapAbort
  | some final_output_amount =>
  match (if acc.is_input_xnt && treasury_ata_valid then
           checked_sub amount_in protocol_fee_xnt
         else some amount_in) with
  | none => .error .unwrapAbort
  | some final_amount_to_vault =>
  if final_output_amount < min_amount_out then .error .notEnoughOut else
  if (acc.src_vault_owner = TOKEN_2022_PROGRAM_ID ∨
      acc.dst_vault_owner = TOKEN_2022_PROGRAM_ID) ∧
     acc.token_2022_program_key ≠ TOKEN_2022_PROGRAM_ID then
    .error .invalidTreasury else
  -- transfer 1: vault_dst -> user_dst, `final_output_amount as u64`
  if acc.vault_dst_balance < final_output_amount % U64 then
    .error .cpiFailure else
  -- transfer 2: vault_dst -> protocol_treasury_ata (guard omits the
  -- `treasury_ata_valid` test, exactly as in the source)
  if (acc.is_output_xnt ∧ 0 < protocol_fee_xnt ∧ p.protocol_treasury ≠ 0) ∧
     (acc.treasury_ata_empty = true ∨
      acc.treasury_ata_owner ≠
        (if acc.dst_vault_owner = TOKEN_2022_PROGRAM_ID then
           TOKEN_2022_PROGRAM_ID else TOKEN_PROGRAM_ID) ∨
      acc.vault_dst_balance - final_output_amount % U64 <
        protocol_fee_xnt % U64) then
    .error .cpiFailure else
  -- transfer 3: user_src -> protocol_treasury_ata (same omitted guard)
  if (acc.is_input_xnt ∧ 0 < protocol_fee_xnt ∧ p.protocol_treasury ≠ 0) ∧
     (acc.treasury_ata_empty = true ∨
      acc.treasury_ata_owner ≠
        (if acc.src_vault_owner = TOKEN_2022_PROGRAM_ID then
           TOKEN_2022_PROGRAM_ID else TOKEN_PROGRAM_ID) ∨
      acc.user_src_balance < protocol_fee_xnt % U64) then
    .error .cpiFailure else
  -- transfer 4: user_src -> vault_src, `final_amount_to_vault as u64`
  if acc.user_src_balance -
       (if acc.is_input_xnt ∧ 0 < protocol_fee_xnt ∧
           p.protocol_treasury ≠ 0 then protocol_fee_xnt % U64 else 0) <
     final_amount_to_vault % U64 then
    .error .cpiFailure else
  .ok ⟨final_output_amount % U64,
       (if acc.is_output_xnt ∧ 0 < protocol_fee_xnt ∧
           p.protocol_treasury ≠ 0 then protocol_fee_xnt % U64 else 0),
       (if acc.is_input_xnt ∧ 0 < protocol_fee_xnt ∧
           p.protocol_treasury ≠ 0 then protocol_fee_xnt % U64 else 0),
       final_amount_to_vault % U64⟩

/-- The native-pool swap-output helper
(`src/instructions/native_pool.rs`, `fn calculate_swap_output`):
floor fee deduction on the input, then the floor constant-product output
formula, every step checked with `MathOverflow`. -/
def calculate_swap_output (amount_in reserve_in reserve_out fee_numerator
    fee_denominator : Nat) : Except ErrorCode Nat :=
  if reserve_in = 0 ∨ reserve_out = 0 then .error .insufficientLiquidity else
  match (checked_mul_u128 amount_in
      (wrap_sub_u64 fee_denominator fee_numerator)).bind
      (fun m => checked_div m fee_denominator) with
  | none => .error .mathOverflow
  | some amount_in_with_fee_wide =>
  let amount_in_with_fee := amount_in_with_fee_wide % U64
  match checked_mul_u128 amount_in_with_fee reserve_out with
  | none => .error .mathOverflow
  | some numerator =>
  match checked_add_u128 reserve_in amount_in_with_fee with
  | none => .error .mathOverflow
  | some denominator =>
  match checked_div numerator denominator with
  | none => .error .mathOverflow
  | some amount_out => .ok (amount_out % U64)

/-- Decidable equality of instruction results. -/
instance {ε α : Type} [DecidableEq ε] [DecidableEq α] :
    DecidableEq (Except ε α) := fun a b =>
  match a, b with
  | .ok x, .ok y =>
    if h : x = y then isTrue (by rw [h])
    else isFalse (fun c => h (Except.ok.inj c))
  | .error e, .error f =>
    if h : e = f then isTrue (by rw [h])
    else isFalse (fun c => h (Except.error.inj c))
  | .ok _, .error _ => isFalse (fun c => Except.noConfusion c)
  | .error _, .ok _ => isFalse (fun c => Except.noConfusion c)

/-- What a successful `add_liquidity` does: shares minted to the
depositor, the two amounts pulled into the vaults, and the updated
`total_amount_minted`. -/
structure AddLiquidityOutcome where
  amount_to_mint : Nat
  deposit0 : Nat
  deposit1 : Nat
  new_total_amount_minted : Nat
  deriving DecidableEq

/-- The `add_liquidity` handler (`src/instructions/liquidity.rs`,
`fn add_liquidity`): user-balance checks, the first-deposit branch
(`(amount_liq0 + amount_liq1) >> 1` on raw wrapping `u64` addition), the
ratio branch (`.unwrap()`ed checked division and multiplication), the
positive-mint check, the `total_amount_minted` update (raw `+=`), the
share mint and the two deposit transfers. -/
def add_liquidity (p : PoolStateRec)
    (user_balance0 user_balance1 vault_balance0 vault_balance1
     amount_liq0 amount_liq1 : Nat) : Except ErrorCode AddLiquidityOutcome :=
  if user_balance0 < amount_liq0 then .error .notEnoughBalance else
  if user_balance1 < amount_liq1 then .error .notEnoughBalance else
  if vault_balance0 = 0 ∧ vault_balance1 = 0 then
    -- initial deposit: bit shift (a + b)/2
    if ((amount_liq0 + amount_liq1) % U64) / 2 = 0 then
      .error .noPoolMintOutput
    else
      .ok ⟨((amount_liq0 + amount_liq1) % U64) / 2, amount_liq0, amount_liq1,
           (p.total_amount_minted + ((amount_liq0 + amount_liq1) % U64) / 2)
             % U64⟩
  else
    match checked_div vault_balance1 vault_balance0 with
    | none => .error .unwrapAbort
    | some exchange10 =>
    match checked_mul_u64 amount_liq0 exchange10 with
    | none => .error .unwrapAbort
    | some amount_deposit_1 =>
    if amount_liq1 < amount_deposit_1 then .error .notEnoughBalance else
    match (checked_mul_u128 amount_deposit_1 p.total_amount_minted).bind
        (fun m => checked_div m vault_balance1) with
    | none => .error .unwrapAbort
    | some q =>
    if q % U64 = 0 then .error .noPoolMintOutput else
    .ok ⟨q % U64, amount_liq0, amount_deposit_1,
         (p.total_amount_minted + q % U64) % U64⟩

/-- What a successful `remove_liquidity` does: the two amounts paid out of
the vaults and the updated `total_amount_minted`. -/
structure RemoveLiquidityOutcome where
  amount0 : Nat
  amount1 : Nat
  new_total_amount_minted : Nat
  deriving DecidableEq

/-- The `remove_liquidity` handler (`src/instructions/liquidity.rs`,
`fn remove_liquidity`): holder-balance check, `BurnTooMuch` check, the two
widened pro-rata amounts (`.unwrap()`ed), the two vault payouts, the share
burn, and the `total_amount_minted -= burn_amount` update. -/
def remove_liquidity (p : PoolStateRec)
    (user_pool_ata_balance vault0_amount vault1_amount burn_amount : Nat) :
    Except ErrorCode RemoveLiquidityOutcome :=
  if user_pool_ata_balance < burn_amount then .error .notEnoughBalance else
  if p.total_amount_minted < burn_amount then .error .burnTooMuch else
  match (checked_mul_u128 burn_amount vault0_amount).bind
      (fun m => checked_div m p.total_amount_minted) with
  | none => .error .unwrapAbort
  | some amount0 =>
  match (checked_mul_u128 burn_amount vault1_amount).bind
      (fun m => checked_div m p.total_amount_minted) with
  | none => .error .unwrapAbort
  | some amount1 =>
  if vault0_amount < amount0 % U64 then .error .cpiFailure else
  if vault1_amount < amount1 % U64 then .error .cpiFailure else
  .ok ⟨amount0 % U64, amount1 % U64, p.total_amount_minted - burn_amount⟩

/-- One step of the `IntegerSquareRoot` Newton loop of
`src/instructions/native_pool.rs`: `while y < x { x = y; y = (x + n/x)/2 }`. -/
def sqrt_loop (n x y : Nat) : Nat :=
  if h : y < x then sqrt_loop n y ((y + n / y) / 2) else x
termination_by x
decreasing_by exact h

/-- `integer_sqrt` for `u128`
(`src/instructions/native_pool.rs`, `impl IntegerSquareRoot for u128`). -/
def integer_sqrt (n : Nat) : Nat :=
  if n = 0 then 0 else sqrt_loop n n ((n + 1) / 2)

/-- What a successful `add_native_liquidity` does: shares minted, the
updated tracked native reserve and the updated share supply. -/
structure AddNativeOutcome where
  lp_to_mint : Nat
  new_native_reserve : Nat
  new_total_amount_minted : Nat
  deriving DecidableEq

/-- The `add_native_liquidity` handler
(`src/instructions/native_pool.rs`, `fn add_native_liquidity`):
native-pool and positive-amount checks, the first-deposit
`isqrt(xnt * token) - 1000` branch (`checked_sub`, failing with
`InsufficientLiquidity`), the proportional branch (each step checked with
`MathOverflow`, each quotient cast to `u64` before `min`), the slippage
check, the two funding transfers, the share mint, and the two checked
state updates. -/
def add_native_liquidity (p : PoolStateRec)
    (token_vault_balance user_lamports user_token_balance
     xnt_amount token_amount min_lp_tokens : Nat) :
    Except ErrorCode AddNativeOutcome :=
  if p.is_native_pool = false then .error .notNativePool else
  if xnt_amount = 0 ∨ token_amount = 0 then .error .invalidInput else
  match (if p.total_amount_minted = 0 then
           match checked_sub (integer_sqrt (xnt_amount * token_amount) % U64)
               1000 with
           | none => .error .insufficientLiquidity
           | some lp => .ok lp
         else
           match (checked_mul_u128 xnt_amount p.total_amount_minted).bind
               (fun m => checked_div m p.native_reserve) with
           | none => .error .mathOverflow
           | some lp_from_xnt =>
           match (checked_mul_u128 token_amount p.total_amount_minted).bind
               (fun m => checked_div m token_vault_balance) with
           | none => .error .mathOverflow
           | some lp_from_token =>
             .ok (min (lp_from_xnt % U64) (lp_from_token % U64)) :
         Except ErrorCode Nat) with
  | .error e => .error e
  | .ok lp_to_mint =>
  if lp_to_mint < min_lp_tokens then .error .slippageExceeded else
  if user_lamports < xnt_amount then .error .cpiFailure else
  if user_token_balance < token_amount then .error .cpiFailure else
  match checked_add_u64 p.native_reserve xnt_amount with
  | none => .error .mathOverflow
  | some new_native_reserve =>
  match checked_add_u64 p.total_amount_minted lp_to_mint with
  | none => .error .mathOverflow
  | some new_total_minted =>
  .ok ⟨lp_to_mint, new_native_reserve, new_total_minted⟩

/-- The protocol fee of `swap_native`
(`src/instructions/native_pool.rs`, lines 502-512): a basis-point share of
the native-denominated amount, with every failure of the checked chain
collapsed to `0` by `unwrap_or(0)`. -/
def native_protocol_fee (p : PoolStateRec) (xnt_amount_for_fee : Nat) : Nat :=
  if p.protocol_treasury ≠ 0 ∧ 0 < p.protocol_fee_bps ∧
     0 < xnt_amount_for_fee then
    if xnt_amount_for_fee * p.protocol_fee_bps < U128 ∧
       xnt_amount_for_fee * p.protocol_fee_bps / 10000 < U64 then
      xnt_amount_for_fee * p.protocol_fee_bps / 10000
    else 0
  else 0

/-- What a successful `swap_native` does: the updated tracked reserve, the
updated raw balance of the native holding account (`pool_pda`), and the
amounts of the swap. -/
structure SwapNativeOutcome where
  new_native_reserve : Nat
  new_pda_lamports : Nat
  amount_out : Nat
  protocol_fee_xnt : Nat
  final_amount_out : Nat
  final_amount_in : Nat
  deriving DecidableEq

/-- The `swap_native` handler
(`src/instructions/native_pool.rs`, `fn swap_native`): native-pool and
positive-input checks, reserve selection by direction, the floor
swap-output helper, protocol-fee computation, the two final-amount
adjustments (checked, `MathOverflow`), the slippage check, then per
direction the transfers in the handler's order -- including, for
token-to-native, the rent-reserve check
`current_lamports.checked_sub(amount_out).unwrap_or(0) >= rent_minimum` --
and the checked update of `native_reserve`. -/
def swap_native (p : PoolStateRec)
    (token_vault_balance pda_lamports rent_minimum user_lamports
     user_token_balance amount_in min_amount_out : Nat)
    (is_xnt_to_token : Bool) : Except ErrorCode SwapNativeOutcome :=
  if p.is_native_pool = false then .error .notNativePool else
  if amount_in = 0 then .error .invalidInput else
  if is_xnt_to_token then
    match calculate_swap_output amount_in p.native_reserve
        token_vault_balance p.fee_numerator p.fee_denominator with
    | .error e => .error e
    | .ok amount_out =>
      match checked_sub amount_in (native_protocol_fee p amount_in) with
      | none => .error .mathOverflow
      | some final_amount_in =>
      if amount_out < min_amount_out then .error .slippageExceeded else
      -- fee transfer user -> treasury, then user -> pool_pda, then
      -- token vault -> user
      if user_lamports < native_protocol_fee p amount_in then
        .error .cpiFailure else
      if user_lamports - native_protocol_fee p amount_in < final_amount_in
        then .error .cpiFailure else
      if token_vault_balance < amount_out then .error .cpiFailure else
      match checked_add_u64 p.native_reserve final_amount_in with
      | none => .error .mathOverflow
      | some nr =>
        .ok ⟨nr, pda_lamports + final_amount_in, amount_out,
             native_protocol_fee p amount_in, amount_out, final_amount_in⟩
  else
    match calculate_swap_output amount_in token_vault_balance
        p.native_reserve p.fee_numerator p.fee_denominator with
    | .error e => .error e
    | .ok amount_out =>
      match checked_sub amount_out (native_protocol_fee p amount_out) with
      | none => .error .mathOverflow
      | some final_amount_out =>
      if final_amount_out < min_amount_out then .error .slippageExceeded else
      -- token user -> vault, rent check, fee pool_pda -> treasury,
      -- pool_pda -> user
      if user_token_balance < amount_in then .error .cpiFailure else
      if pda_lamports - amount_out < rent_minimum then
        .error .insufficientRentReserve else
      if pda_lamports < native_protocol_fee p amount_out then
        .error .cpiFailure else
      if pda_lamports - native_protocol_fee p amount_out < final_amount_out
        then .error .cpiFailure else
      match checked_sub p.native_reserve amount_out with
      | none => .error .mathOverflow
      | some nr =>
        .ok ⟨nr, pda_lamports - native_protocol_fee p amount_out
               - final_amount_out, amount_out,
             native_protocol_fee p amount_out, final_amount_out, amount_in⟩

/-- The `reconcile_native_reserve` handler
(`src/instructions/native_pool.rs`, `fn reconcile_native_reserve`):
native-pool check, `actual_tradeable = lamports - rent_minimum` (checked,
`InsufficientRentReserve`), then an unconditional overwrite of
`native_reserve`; drift against the old tracked value is never checked. -/
def reconcile_native_reserve (p : PoolStateRec)
    (pda_lamports rent_minimum : Nat) : Except ErrorCode PoolStateRec :=
  if p.is_native_pool = false then .error .notNativePool else
  match checked_sub pda_lamports rent_minimum with
  | none => .error .insufficientRentReserve
  | some actual_tradeable =>
    .ok { p with native_reserve := actual_tradeable }

/-- Little-endian byte decoding (`u64::from_le_bytes` and friends);
each list entry is one byte. -/
def le_bytes_to_nat : List Nat → Nat
  | [] => 0
  | b :: rest => b % 256 + 256 * le_bytes_to_nat rest

/-- `PoolState::try_deserialize` (`src/state.rs`): an
`AccountDiscriminatorNotFound` error below 32 bytes; otherwise the three
base `u64` fields after the 8-byte discriminator, then the treasury /
fee-bps extension if at least 34 bytes remain, then the native-pool
extension if at least 10 bytes remain after that; absent extensions
default to zero / false.  Every slice access is in bounds under the
32-byte guard, so the `map_err` fallbacks on `try_into` cannot fire. -/
def try_deserialize (data : List Nat) : Except ErrorCode PoolStateRec :=
  if data.length < 32 then .error .accountDiscriminatorNotFound else
  let cursor := (data.drop 8).drop 24
  let total_amount_minted := le_bytes_to_nat ((data.drop 8).take 8)
  let fee_numerator := le_bytes_to_nat (((data.drop 8).drop 8).take 8)
  let fee_denominator := le_bytes_to_nat (((data.drop 8).drop 16).take 8)
  let protocol_treasury :=
    if 34 ≤ cursor.length then le_bytes_to_nat (cursor.take 32) else 0
  let protocol_fee_bps :=
    if 34 ≤ cursor.length then le_bytes_to_nat ((cursor.drop 32).take 2)
    else 0
  let rest := if 34 ≤ cursor.length then cursor.drop 34 else cursor
  let is_native_pool :=
    if 10 ≤ rest.length then decide (rest.headD 0 ≠ 0) else false
  let native_reserve :=
    if 10 ≤ rest.length then le_bytes_to_nat ((rest.drop 1).take 8) else 0
  let native_mint_index := if 10 ≤ rest.length then rest.getD 9 0 else 0
  .ok ⟨total_amount_minted, fee_numerator, fee_denominator,
       protocol_treasury, protocol_fee_bps, is_native_pool,
       native_mint_index, native_reserve⟩

/-- Successful `checked_sub` means no underflow and an exact difference. -/
theorem checked_sub_some {a b c : Nat} (h : checked_sub a b = some c) :
    b ≤ a ∧ c = a - b := by
  unfold checked_sub at h
  split at h
  · exact ⟨‹_›, (Option.some.inj h).symm⟩
  · cases h

/-- Successful `checked_add_u64` means an exact sum. -/
theorem checked_add_u64_some {a b c : Nat} (h : checked_add_u64 a b = some c) :
    c = a + b := by
  unfold checked_add_u64 at h
  split at h
  · exact (Option.some.inj h).symm
  · cases h

/-- Claim C1: the constant-product invariant is claimed to hold after
every successful swap.  It fails on the regular swap instruction: at
reserves 1000/1000, amountIn 100, fee 3/1000, no treasury, the handler
deposits the full 100 into the input vault but pays out 91 (its payout is
`reserveOut - floor(reserveIn * reserveOut / (reserveIn + adjustedIn))`,
which rounds the payout up, and its LP fee `floor(100 * 3 / 1000) = 0`),
leaving post-swap product 1100 * 909 = 999900 < 1000000. -/
theorem C1_regular_swap_product_decreases :
    swap_regular ⟨0, 3, 1000, 0, 0, false, 0, 0⟩
      ⟨1000, 1000, 1000, false, false, 1, 1, 2, true, 0⟩ 100 0 =
      .ok ⟨91, 0, 0, 100⟩ ∧
    (1000 + 100) * (1000 - 91) < 1000 * 1000 := by decide

/-- Claim C2: the boundary swap `reserveIn = reserveOut = 1000,
amountIn = 100, fee 3/1000` is claimed to yield 90 in both the regular
swap instruction and the native-pool helper.  The native helper
`calculate_swap_output` does yield 90 (the floor formula), but the regular
swap instruction yields 91: its fee-adjusted input is
`100 - floor(100 * 3 / 1000) = 100`, not `floor(100 * 997 / 1000) = 99`,
and its payout rounds up. -/
theorem C2_boundary_swap_outputs :
    calculate_swap_output 100 1000 1000 3 1000 = .ok 90 ∧
    swap_regular ⟨0, 3, 1000, 0, 0, false, 0, 0⟩
      ⟨1000, 1000, 1000, false, false, 1, 1, 2, true, 0⟩ 100 0 =
      .ok ⟨91, 0, 0, 100⟩ := by decide

/-- Claim C3: with a treasury configured, a nonzero fee due, and an
invalid treasury record, the swap is claimed to succeed with no fee
transferred.  The handler only skips the fee *deduction* when the record
is invalid; the fee *transfer* guard omits the validity test.  First
conjunct: with an empty treasury record the attempted transfer fails and
the whole swap aborts.  Second conjunct: with a treasury record owned by
the extension token program (not the expected legacy program) the trader
receives the full un-deducted 91 *and* 9 units of fee are still paid out
of the vault. -/
theorem C3_invalid_treasury_fee_transfer :
    swap_regular ⟨0, 3, 1000, 7, 1000, false, 0, 0⟩
      ⟨1000, 1000, 1000, false, true, 1, 1, 2, true, 0⟩ 100 0 =
      .error .cpiFailure ∧
    swap_regular ⟨0, 3, 1000, 7, 1000, false, 0, 0⟩
      ⟨1000, 1000, 1000, false, true, 1, 2, 2, false, 2⟩ 100 0 =
      .ok ⟨91, 9, 0, 100⟩ := by decide

/-- Claim C4 counterexample: with `total_amount_minted = 0` and
`burn_amount = 0` both guards pass, yet the handler aborts on the
`.unwrap()` of a division by zero instead of returning the claimed
amounts or one of the claimed errors. -/
theorem C4_zero_supply_burn_aborts :
    remove_liquidity ⟨0, 0, 1, 0, 0, false, 0, 0⟩ 0 5 7 0 =
      .error .unwrapAbort ∧
    ErrorCode.unwrapAbort ≠ ErrorCode.notEnoughBalance ∧
    ErrorCode.unwrapAbort ≠ ErrorCode.burnTooMuch := by decide

/-- Claim C4 (amended): for `u64`-ranged inputs, `remove_liquidity` fails
with `NotEnoughBalance` when the burn exceeds the holder balance, with
`BurnTooMuch` when it exceeds `total_amount_minted`, and otherwise --
provided `total_amount_minted > 0` -- pays out exactly
`floor(burn * vaultI / total)` per side in widened arithmetic and
decrements `total_amount_minted` by the burn after computing the
outputs. -/
theorem C4_remove_liquidity_spec (p : PoolStateRec)
    (user_lp v0 v1 burn : Nat) (hv0 : v0 < U64) (hb : burn < U64) :
    (user_lp < burn →
      remove_liquidity p user_lp v0 v1 burn = .error .notEnoughBalance)
    ∧ (burn ≤ user_lp → p.total_amount_minted < burn →
        remove_liquidity p user_lp v0 v1 burn = .error .burnTooMuch)
    ∧ (burn ≤ user_lp → burn ≤ p.total_amount_minted →
       0 < p.total_amount_minted → v1 < U64 →
        remove_liquidity p user_lp v0 v1 burn =
          .ok ⟨burn * v0 / p.total_amount_minted,
               burn * v1 / p.total_amount_minted,
               p.total_amount_minted - burn⟩) := by
  refine ⟨fun h => ?_, fun h1 h2 => ?_, fun h1 h2 h3 hv1 => ?_⟩
  · simp [remove_liquidity, if_pos h]
  · simp [remove_liquidity, if_neg (by omega : ¬ user_lp < burn), if_pos h2]
  · have hm0 : burn * v0 < U128 := by
      calc burn * v0 < U64 * U64 := Nat.mul_lt_mul'' hb hv0
      _ = U128 := by norm_num [U64, U128]
    have hm1 : burn * v1 < U128 := by
      calc burn * v1 < U64 * U64 := Nat.mul_lt_mul'' hb hv1
      _ = U128 := by norm_num [U64, U128]
    have hd0 : burn * v0 / p.total_amount_minted ≤ v0 := by
      calc burn * v0 / p.total_amount_minted
          ≤ p.total_amount_minted * v0 / p.total_amount_minted :=
            Nat.div_le_div_right (Nat.mul_le_mul_right _ h2)
      _ = v0 := Nat.mul_div_cancel_left _ h3
    have hd1 : burn * v1 / p.total_amount_minted ≤ v1 := by
      calc burn * v1 / p.total_amount_minted
          ≤ p.total_amount_minted * v1 / p.total_amount_minted :=
            Nat.div_le_div_right (Nat.mul_le_mul_right _ h2)
      _ = v1 := Nat.mul_div_cancel_left _ h3
    simp [remove_liquidity, if_neg (by omega : ¬ user_lp < burn),
      if_neg (by omega : ¬ p.total_amount_minted < burn),
      checked_mul_u128, checked_div, if_pos hm0, if_pos hm1,
      if_neg (by omega : ¬ p.total_amount_minted = 0),
      Nat.mod_eq_of_lt (by omega : burn * v0 / p.total_amount_minted < U64),
      Nat.mod_eq_of_lt (by omega : burn * v1 / p.total_amount_minted < U64),
      if_neg (by omega : ¬ v0 < burn * v0 / p.total_amount_minted),
      if_neg (by omega : ¬ v1 < burn * v1 / p.total_amount_minted)]

/-- Claim C4 witness: burning 4 of 10 outstanding shares against vaults of
100 and 50 pays out 40 and 20 and leaves 6 shares outstanding. -/
theorem C4_remove_liquidity_spec_witness :
    remove_liquidity ⟨10, 0, 1, 0, 0, false, 0, 0⟩ 5 100 50 4 =
      .ok ⟨40, 20, 6⟩ :=
  (C4_remove_liquidity_spec ⟨10, 0, 1, 0, 0, false, 0, 0⟩ 5 100 50 4
    (by decide) (by decide)).2.2 (by decide) (by decide) (by decide)
    (by decide)

/-- Claim C5 counterexample: a deposit into a pool whose vault balances
are 0 and 1 reaches the ratio branch and aborts on the `.unwrap()` of the
division by the zero vault balance, instead of returning the claimed
result or one of the claimed errors. -/
theorem C5_mixed_zero_vault_aborts :
    add_liquidity ⟨0, 0, 1, 0, 0, false, 0, 0⟩ 10 10 0 1 1 1 =
      .error .unwrapAbort ∧
    ErrorCode.unwrapAbort ≠ ErrorCode.notEnoughBalance ∧
    ErrorCode.unwrapAbort ≠ ErrorCode.noPoolMintOutput := by decide

/-- Claim C5 (amended): with both requested amounts within the user
balances and a `u64`-ranged share supply: when both vault balances are
zero and the amounts do not overflow their raw `u64` sum, the mint is
`(amount0 + amount1) >> 1` (zero mint fails with `NoPoolMintOutput`) and
both amounts are taken as-is; when both vault balances are positive,
`deposit1 = amount0 * (vault1 / vault0)` with integer division for the
ratio, exceeding `amountRequested1` fails with `NotEnoughBalance`, and the
mint is `deposit1 * totalShares / vault1` in widened arithmetic (zero mint
fails with `NoPoolMintOutput`); when exactly one vault balance is zero the
operation aborts on an `.unwrap()`ed division failure. -/
theorem C5_add_liquidity_spec (p : PoolStateRec) (ub0 ub1 v0 v1 a0 a1 : Nat)
    (h0 : a0 ≤ ub0) (h1 : a1 ≤ ub1) (htot : p.total_amount_minted < U64) :
    (v0 = 0 → v1 = 0 → a0 + a1 < U64 →
      add_liquidity p ub0 ub1 v0 v1 a0 a1 =
        if (a0 + a1) / 2 = 0 then .error .noPoolMintOutput
        else .ok ⟨(a0 + a1) / 2, a0, a1,
                  (p.total_amount_minted + (a0 + a1) / 2) % U64⟩)
    ∧ (0 < v0 → 0 < v1 → a0 * (v1 / v0) < U64 →
        (a1 < a0 * (v1 / v0) →
          add_liquidity p ub0 ub1 v0 v1 a0 a1 = .error .notEnoughBalance)
        ∧ (a0 * (v1 / v0) ≤ a1 →
           a0 * (v1 / v0) * p.total_amount_minted / v1 < U64 →
            add_liquidity p ub0 ub1 v0 v1 a0 a1 =
              if a0 * (v1 / v0) * p.total_amount_minted / v1 = 0 then
                .error .noPoolMintOutput
              else .ok ⟨a0 * (v1 / v0) * p.total_amount_minted / v1, a0,
                        a0 * (v1 / v0),
                        (p.total_amount_minted +
                          a0 * (v1 / v0) * p.total_amount_minted / v1)
                          % U64⟩))
    ∧ (v0 = 0 → 0 < v1 →
        add_liquidity p ub0 ub1 v0 v1 a0 a1 = .error .unwrapAbort)
    ∧ (0 < v0 → v1 = 0 →
        add_liquidity p ub0 ub1 v0 v1 a0 a1 = .error .unwrapAbort) := by
  have hub0 : ¬ ub0 < a0 := by omega
  have hub1 : ¬ ub1 < a1 := by omega
  refine ⟨fun hz0 hz1 hsum => ?_, fun hp0 hp1 hdep => ?_,
          fun hz0 hp1 => ?_, fun hp0 hz1 => ?_⟩
  · simp [add_liquidity, if_neg hub0, if_neg hub1, hz0, hz1,
      Nat.mod_eq_of_lt hsum]
  · have hdiv : ¬ v0 = 0 := by omega
    constructor
    · intro hlt
      simp [add_liquidity, if_neg hub0, if_neg hub1,
        if_neg (by omega : ¬ (v0 = 0 ∧ v1 = 0)), checked_div, hdiv,
        checked_mul_u64, if_pos hdep, if_pos hlt]
    · intro hle hq
      have hmul : a0 * (v1 / v0) * p.total_amount_minted < U128 := by
        calc a0 * (v1 / v0) * p.total_amount_minted
            < U64 * U64 := Nat.mul_lt_mul'' hdep htot
        _ = U128 := by norm_num [U64, U128]
      simp [add_liquidity, if_neg hub0, if_neg hub1,
        if_neg (by omega : ¬ (v0 = 0 ∧ v1 = 0)), checked_div, hdiv,
        checked_mul_u64, if_pos hdep,
        if_neg (by omega : ¬ a1 < a0 * (v1 / v0)),
        checked_mul_u128, if_pos hmul, if_neg (by omega : ¬ v1 = 0),
        Nat.mod_eq_of_lt hq]
  · simp [add_liquidity, if_neg hub0, if_neg hub1,
      if_neg (by omega : ¬ (v0 = 0 ∧ v1 = 0)), checked_div,
      if_pos hz0]
  · have hdiv : ¬ v0 = 0 := by omega
    have hzq : v1 / v0 = 0 := by simp [hz1]
    simp [add_liquidity, if_neg hub0, if_neg hub1,
      if_neg (by omega : ¬ (v0 = 0 ∧ v1 = 0)), checked_div, hdiv,
      checked_mul_u64, hzq, hz1, U64, U128]

/-- Claim C5 witness: the specified boundary -- a first deposit of
100 and 50 into an empty pool mints exactly 75 shares. -/
theorem C5_add_liquidity_spec_witness :
    add_liquidity ⟨0, 0, 1, 0, 0, false, 0, 0⟩ 100 50 0 0 100 50 =
      .ok ⟨75, 100, 50, 75⟩ := by
  have h := (C5_add_liquidity_spec ⟨0, 0, 1, 0, 0, false, 0, 0⟩ 100 50 0 0
      100 50 (by omega) (by omega) (by decide)).1 rfl rfl (by decide)
  rw [h]; decide

/-- Claim C6 counterexample: a first native deposit of 1 and 1 (square
root 1, below the 1000-share minimum-liquidity burn) fails with
`InsufficientLiquidity` from the failed `checked_sub`, not with the
claimed `SlippageExceeded`, and mints nothing. -/
theorem C6_small_first_deposit_aborts :
    add_native_liquidity ⟨0, 3, 1000, 0, 0, true, 0, 0⟩ 0 10 10 1 1 5 =
      .error .insufficientLiquidity ∧
    ErrorCode.insufficientLiquidity ≠ ErrorCode.slippageExceeded := by
  have hsq : integer_sqrt (1 * 1) = 1 := by simp [integer_sqrt, sqrt_loop]
  exact ⟨by simp only [add_native_liquidity, hsq]; decide, by decide⟩

/-- Claim C6 (amended): a first deposit into a native pool with positive
amounts and `isqrt(xnt * token) >= 1000` (below that the handler fails
with `InsufficientLiquidity`) mints `isqrt(xnt * token) - 1000` shares,
failing with `SlippageExceeded` exactly when that result is below the
caller-supplied minimum. -/
theorem C6_first_native_deposit_spec (p : PoolStateRec)
    (tvb ulam utok xnt token min_lp : Nat)
    (hn : p.is_native_pool = true) (ht : p.total_amount_minted = 0)
    (hx : 0 < xnt) (hk : 0 < token)
    (hs : 1000 ≤ integer_sqrt (xnt * token))
    (hc : integer_sqrt (xnt * token) < U64)
    (hres : p.native_reserve + xnt < U64)
    (hlam : xnt ≤ ulam) (htk : token ≤ utok) :
    (integer_sqrt (xnt * token) - 1000 < min_lp →
      add_native_liquidity p tvb ulam utok xnt token min_lp =
        .error .slippageExceeded)
    ∧ (min_lp ≤ integer_sqrt (xnt * token) - 1000 →
        add_native_liquidity p tvb ulam utok xnt token min_lp =
          .ok ⟨integer_sqrt (xnt * token) - 1000,
               p.native_reserve + xnt,
               integer_sqrt (xnt * token) - 1000⟩) := by
  constructor
  · intro hmin
    simp [add_native_liquidity, hn,
      if_neg (by omega : ¬ (xnt = 0 ∨ token = 0)),
      ht, checked_sub, Nat.mod_eq_of_lt hc, if_pos hs, if_pos hmin]
  · intro hmin
    simp [add_native_liquidity, hn,
      if_neg (by omega : ¬ (xnt = 0 ∨ token = 0)),
      ht, checked_sub, Nat.mod_eq_of_lt hc, if_pos hs,
      if_neg (by omega : ¬ integer_sqrt (xnt * token) - 1000 < min_lp),
      if_neg (by omega : ¬ ulam < xnt), if_neg (by omega : ¬ utok < token),
      checked_add_u64, if_pos hres,
      if_pos (by omega : 0 + (integer_sqrt (xnt * token) - 1000) < U64),
      if_pos (by omega : integer_sqrt (xnt * token) - 1000 < U64)]

/-- Claim C6 witness: the specified scenario -- a first native deposit of
10000 and 10000 mints `isqrt(100000000) - 1000 = 9000` shares. -/
theorem C6_first_native_deposit_spec_witness :
    add_native_liquidity ⟨0, 3, 1000, 0, 0, true, 0, 0⟩ 0 1000000 1000000
      10000 10000 0 = .ok ⟨9000, 10000, 9000⟩ := by
  have hsq : integer_sqrt (10000 * 10000) = 10000 := by
    simp [integer_sqrt, sqrt_loop]
  have h := (C6_first_native_deposit_spec ⟨0, 3, 1000, 0, 0, true, 0, 0⟩
      0 1000000 1000000 10000 10000 0 rfl rfl (by decide) (by decide)
      (by rw [hsq]; omega) (by rw [hsq]; decide) (by decide) (by decide)
      (by decide)).2 (by omega)
  rw [h, hsq]

/-- Claim C7 counterexample: a 16-byte record is rejected with Anchor's
`AccountDiscriminatorNotFound`, a different error than the program's own
`InvalidAccountData` named by the claim. -/
theorem C7_short_record_error_name :
    try_deserialize (List.replicate 16 0) =
      .error .accountDiscriminatorNotFound ∧
    ErrorCode.accountDiscriminatorNotFound ≠ ErrorCode.invalidAccountData :=
  by decide

/-- Claim C7 (amended): decoding fails -- with Anchor's
`AccountDiscriminatorNotFound` rather than the program's
`InvalidAccountData` -- exactly below the 32-byte base length; any record
of at least 32 bytes decodes without error, each extension is read only
when enough trailing bytes remain (the treasury extension needs 34, the
native extension 10 more), and an absent extension decodes to its
zero/false defaults. -/
theorem C7_try_deserialize_spec (data : List Nat) :
    (data.length < 32 →
      try_deserialize data = .error .accountDiscriminatorNotFound)
    ∧ (32 ≤ data.length → ∃ pl, try_deserialize data = .ok pl
        ∧ (data.length < 66 →
            pl.protocol_treasury = 0 ∧ pl.protocol_fee_bps = 0)
        ∧ (data.length < 42 ∨ 66 ≤ data.length ∧ data.length < 76 →
            pl.is_native_pool = false ∧ pl.native_reserve = 0 ∧
            pl.native_mint_index = 0)) := by
  constructor
  · intro h
    simp only [try_deserialize, if_pos h]
  · intro h
    rw [try_deserialize, if_neg (by omega : ¬ data.length < 32)]
    refine ⟨_, rfl, fun h66 => ?_, fun hcase => ?_⟩
    · have hno : ¬ 34 ≤ data.length - 32 := by omega
      simp [hno]
    · by_cases h34 : 34 ≤ data.length - 32
      · have hrest : ¬ 10 ≤ data.length - 66 := by omega
        simp [h34, hrest]
      · have hrest : ¬ 10 ≤ data.length - 32 := by omega
        simp [h34, hrest]

/-- Claim C7 witness: a 31-byte record is rejected. -/
theorem C7_try_deserialize_spec_witness :
    try_deserialize (List.replicate 31 0) =
      .error .accountDiscriminatorNotFound :=
  (C7_try_deserialize_spec (List.replicate 31 0)).1 (by decide)

/-- Claim C9: `reconcile_native_reserve` computes the new reserve as the
holding-account balance minus the reservation floor, fails with
`InsufficientRentReserve` exactly when that difference is negative, and on
success overwrites `native_reserve` with the computed value whatever the
previously tracked value was -- drift is never a cause of rejection. -/
theorem C9_reconcile_spec (p : PoolStateRec) (pda_lamports rent_minimum : Nat)
    (hn : p.is_native_pool = true) :
    (pda_lamports < rent_minimum →
      reconcile_native_reserve p pda_lamports rent_minimum =
        .error .insufficientRentReserve)
    ∧ (rent_minimum ≤ pda_lamports →
        reconcile_native_reserve p pda_lamports rent_minimum =
          .ok { p with native_reserve := pda_lamports - rent_minimum }) := by
  constructor
  · intro h
    simp [reconcile_native_reserve, hn, checked_sub,
      if_neg (by omega : ¬ rent_minimum ≤ pda_lamports)]
  · intro h
    simp [reconcile_native_reserve, hn, checked_sub, if_pos h]

/-- Claim C9 witness: the specified scenario -- tracked reserve 500,
actual balance minus floor 480 -- succeeds and updates the tracked value
to 480 (a drift of 20) without erroring. -/
theorem C9_reconcile_spec_witness :
    reconcile_native_reserve ⟨0, 3, 1000, 0, 0, true, 0, 500⟩ 500 20 =
      .ok ⟨0, 3, 1000, 0, 0, true, 0, 480⟩ :=
  (C9_reconcile_spec ⟨0, 3, 1000, 0, 0, true, 0, 500⟩ 500 20 rfl).2
    (by omega)

/-- Claim C10: in every successful native swap the tracked reserve moves
exactly with the holding account: the signed reserve delta equals the
signed holding-account balance delta; swapping native-to-token the
reserve grows by `amount_in` minus the protocol fee (the amount actually
deposited), and swapping token-to-native it shrinks by the full pre-fee
`amount_out` (user payout plus protocol fee, both leaving the holding
account). -/
theorem C10_swap_native_reserve_consistency (p : PoolStateRec)
    (tvb pda rent ulam utok ain minout : Nat) (dir : Bool)
    (out : SwapNativeOutcome)
    (h : swap_native p tvb pda rent ulam utok ain minout dir = .ok out) :
    out.new_native_reserve + pda = p.native_reserve + out.new_pda_lamports
    ∧ (dir = true →
        out.new_native_reserve = p.native_reserve + out.final_amount_in ∧
        out.final_amount_in + out.protocol_fee_xnt = ain)
    ∧ (dir = false →
        out.new_native_reserve + out.amount_out = p.native_reserve ∧
        out.final_amount_out + out.protocol_fee_xnt = out.amount_out) := by
  unfold swap_native at h
  split at h
  · exact absurd h (by simp)
  split at h
  · exact absurd h (by simp)
  split at h
  case isTrue hdir =>
    split at h
    · exact absurd h (by simp)
    case h_2 amount_out heq =>
      split at h
      · exact absurd h (by simp)
      case h_2 final_amount_in heqsub =>
        split at h
        · exact absurd h (by simp)
        split at h
        · exact absurd h (by simp)
        split at h
        · exact absurd h (by simp)
        split at h
        · exact absurd h (by simp)
        split at h
        · exact absurd h (by simp)
        case h_2 nr heqadd =>
          obtain ⟨hle, hfi⟩ := checked_sub_some heqsub
          have hnr := checked_add_u64_some heqadd
          injection h with h
          subst h
          refine ⟨by simp; omega, fun _ => ⟨by simp; omega, by simp; omega⟩,
                  fun hd => absurd hd (by simp [hdir])⟩
  case isFalse hdir =>
    split at h
    · exact absurd h (by simp)
    case h_2 amount_out heq =>
      split at h
      · exact absurd h (by simp)
      case h_2 final_amount_out heqsub =>
        split at h
        · exact absurd h (by simp)
        split at h
        · exact absurd h (by simp)
        split at h
        · exact absurd h (by simp)
        case isFalse hfee =>
          split at h
          · exact absurd h (by simp)
          case isFalse hpay =>
            split at h
            · exact absurd h (by simp)
            split at h
            · exact absurd h (by simp)
            case h_2 nr heqsub2 =>
              obtain ⟨hle, hfo⟩ := checked_sub_some heqsub
              obtain ⟨hle2, hnr⟩ := checked_sub_some heqsub2
              injection h with h
              subst h
              refine ⟨by simp; omega, fun hd => absurd hd (by simp [hdir]),
                      fun _ => ⟨by simp; omega, by simp; omega⟩⟩

/-- Claim C10 witness: a concrete successful token-to-native swap
(reserves 1000/1000, amount in 100, payout 90): the reserve delta matches
the holding-account delta, `910 + 2000 = 1000 + 1910`. -/
theorem C10_swap_native_reserve_consistency_witness :
    (910 : Nat) + 2000 = 1000 + 1910 :=
  (C10_swap_native_reserve_consistency ⟨0, 3, 1000, 0, 0, true, 0, 1000⟩
    1000 2000 100 0 100 100 0 false ⟨910, 1910, 90, 0, 90, 100⟩
    (by decide)).1
